import Mathlib

/-!
Verification of the CHORUS multi-model safety-consensus core
(src/main.py) against its natural-language specification.

Python strings are modelled as `List Char`; the Python primitives used by
the source (str.strip, str.split, str.upper, the `in` substring test,
slicing `[:200]`, `' '.join`) are embedded below with Python semantics.
Machine integers do not occur: the only arithmetic is the small vote count.
Provider calls are modelled by their outcome, `Except (List Char) (List Char)`
(error message or raw reply text), since the adapters only ever inspect
that outcome.
-/

/-- The characters stripped by Python str.strip with no argument
(ASCII whitespace). -/
def pyIsSpace (c : Char) : Bool :=
  c = ' ' || c = '\t' || c = '\n' || c = '\r' || c = '\x0b' || c = '\x0c'

/-- Right strip: drop trailing whitespace, as the right half of
Python str.strip. -/
def pyRStrip (s : List Char) : List Char :=
  ((s.reverse).dropWhile pyIsSpace).reverse

/-- Python str.strip: drop leading and trailing whitespace. -/
def pyStrip (s : List Char) : List Char :=
  pyRStrip (s.dropWhile pyIsSpace)

/-- Python s.split(chr(10)): split on every newline, keeping empty pieces;
the result is never empty. -/
def splitLines : List Char → List (List Char)
  | [] => [[]]
  | c :: rest =>
    if c = '\n' then [] :: splitLines rest
    else
      match splitLines rest with
      | [] => [[c]]
      | l :: ls => (c :: l) :: ls

/-- Python chr(32).join: concatenate with a single space between pieces. -/
def joinSpace : List (List Char) → List Char
  | [] => []
  | [l] => l
  | l :: ls => l ++ (' ' :: joinSpace ls)

/-- Python substring test pat in s. -/
def occursIn (pat : List Char) : List Char → Bool
  | [] => pat.isEmpty
  | c :: rest => pat.isPrefixOf (c :: rest) || occursIn pat rest

/-- The case-normalized first line examined by extract_verdict:
response_text.strip().split(chr(10))[0].upper() from src/main.py line 68. -/
def firstLineUpper (response_text : List Char) : List Char :=
  ((splitLines (pyStrip response_text)).headD []).map Char.toUpper

/-- extract_verdict from src/main.py lines 61-75: examine only the
(stripped) first line; SAFE marker wins, then UNSAFE, else unknown. -/
def extract_verdict (response_text : List Char) : List Char :=
  let first_line := firstLineUpper response_text
  if occursIn ("VERDICT: SAFE".toList) first_line then "safe".toList
  else if occursIn ("VERDICT: UNSAFE".toList) first_line then "unsafe".toList
  else "unknown".toList

/-- The ModelResponse pydantic model of src/main.py lines 48-52. -/
structure ModelResponse where
  model_name : List Char
  safe : Bool
  concerns : List (List Char)
  reasoning : List Char
deriving DecidableEq

/-- The ConsensusRecord dict returned by evaluate_consensus
(src/main.py lines 77-111): verdict, confidence, reasoning, flagged_by. -/
structure ConsensusRecord where
  verdict : List Char
  confidence : List Char
  reasoning : List Char
  flagged_by : List (List Char)
deriving DecidableEq

/-- boolToNat as used implicitly by the Python sum over booleans. -/
def boolToNat (b : Bool) : Nat := if b then 1 else 0

/-- evaluate_consensus from src/main.py lines 77-111. -/
def evaluate_consensus (claude_result gpt5_result llama_result : ModelResponse) :
    ConsensusRecord :=
  let safe_votes := boolToNat claude_result.safe + boolToNat gpt5_result.safe +
    boolToNat llama_result.safe
  if safe_votes = 3 then
    { verdict := "SAFE".toList, confidence := "high".toList,
      reasoning := "All three models flagged this output as safe.".toList,
      flagged_by := [] }
  else if safe_votes = 0 then
    { verdict := "UNSAFE".toList, confidence := "high".toList,
      reasoning := "All three models flagged this output as unsafe".toList,
      flagged_by := ["Claude".toList, "GPT-5".toList, "Llama".toList] }
  else
    let flagged_by :=
      (if claude_result.safe then [] else ["Claude".toList]) ++
      (if gpt5_result.safe then [] else ["GPT-5".toList]) ++
      (if llama_result.safe then [] else ["Llama".toList])
    { verdict := "REVIEW_REQUIRED".toList, confidence := "uncertain".toList,
      reasoning := Nat.toDigits 10 flagged_by.length ++
        " of 3 models flagged concerns".toList,
      flagged_by := flagged_by }

/-- The success branch shared verbatim by the three adapters
(src/main.py lines 141-155, 186-200, 231-245): run extract_verdict,
collect the concern only on an explicit UNSAFE verdict, keep the first
200 characters of the raw reply as reasoning. -/
def processReply (model_name : List Char) (response_text : List Char) :
    ModelResponse :=
  let verdict := extract_verdict response_text
  let concerns :=
    if verdict = "unsafe".toList then
      let reasoning_lines := (splitLines response_text).tail
      let reasoning := pyStrip (joinSpace reasoning_lines)
      if reasoning = [] then [] else [reasoning.take 200]
    else []
  { model_name := model_name, safe := verdict = "safe".toList,
    concerns := concerns, reasoning := response_text.take 200 }

/-- analyze_with_claude from src/main.py lines 113-155, as a function of
the provider-call outcome: any exception is caught and converted into the
fail-closed ModelResponse of lines 133-139. -/
def analyze_with_claude (outcome : Except (List Char) (List Char)) :
    ModelResponse :=
  match outcome with
  | .error e =>
    { model_name := "Claude Sonnet 4".toList, safe := false,
      concerns := ["API Error: ".toList ++ e],
      reasoning := "Error occurred during analysis".toList }
  | .ok response_text => processReply ("Claude Sonnet 4".toList) response_text

/-- analyze_with_gpt5 from src/main.py lines 158-200. -/
def analyze_with_gpt5 (outcome : Except (List Char) (List Char)) :
    ModelResponse :=
  match outcome with
  | .error e =>
    { model_name := "GPT 5.2 Thinking".toList, safe := false,
      concerns := ["API Error: ".toList ++ e],
      reasoning := "Error occurred during analysis".toList }
  | .ok response_text => processReply ("GPT 5.2 Thinking".toList) response_text

/-- analyze_with_llama from src/main.py lines 203-245. -/
def analyze_with_llama (outcome : Except (List Char) (List Char)) :
    ModelResponse :=
  match outcome with
  | .error e =>
    { model_name := "Llama 3.1 70B".toList, safe := false,
      concerns := ["API Error: ".toList ++ e],
      reasoning := "Error occurred during analysis".toList }
  | .ok response_text => processReply ("Llama 3.1 70B".toList) response_text

/-- The three provider adapters, for the orchestrator's invocation trace. -/
inductive ProviderName where
  | claudeP
  | gpt5P
  | llamaP
deriving DecidableEq

/-- The result bundle returned by the analyze-all endpoint
(src/main.py lines 317-324), without the wall-clock timestamp. -/
structure Bundle where
  content : List Char
  claude : ModelResponse
  gpt5 : ModelResponse
  llama : ModelResponse
  consensus : ConsensusRecord
deriving DecidableEq

/-- One run of the analyze-all handler: which providers it invoked and the
bundle it returned, with none standing for a rejection before the bundle
is built (the source has no such path). -/
structure OrchestratorRun where
  invoked : List ProviderName
  result : Option Bundle
deriving DecidableEq

/-- analyze_all_models from src/main.py lines 293-324, as a function of the
request content and the three provider-call outcomes. The handler body has
no input-validation branch: it awaits the three adapters unconditionally
(lines 299-301), resolves consensus (line 307) and returns the full dict
(lines 317-324); persistence (line 309) is treated as the opaque sink of
the spec and is not modelled here. -/
def analyze_all_models (content : List Char)
    (claudeOutcome gpt5Outcome llamaOutcome : Except (List Char) (List Char)) :
    OrchestratorRun :=
  let claude_response := analyze_with_claude claudeOutcome
  let gpt5_response := analyze_with_gpt5 gpt5Outcome
  let llama_response := analyze_with_llama llamaOutcome
  let consensus := evaluate_consensus claude_response gpt5_response llama_response
  { invoked := [.claudeP, .gpt5P, .llamaP],
    result := some
      { content := content, claude := claude_response, gpt5 := gpt5_response,
        llama := llama_response, consensus := consensus } }

/-- The dissenter list as the spec words it: every model whose result had
safe = false, in the fixed Claude, GPT-5, Llama order. -/
def dissenters (r1 r2 r3 : ModelResponse) : List (List Char) :=
  (if r1.safe then [] else ["Claude".toList]) ++
  (if r2.safe then [] else ["GPT-5".toList]) ++
  (if r3.safe then [] else ["Llama".toList])

/-- Number of safe = true votes among a triple of results. -/
def safeVotes (r1 r2 r3 : ModelResponse) : Nat :=
  boolToNat r1.safe + boolToNat r2.safe + boolToNat r3.safe

/-! ### Structural lemmas about the embedded Python string primitives -/

/-- Char.toUpper fixes every character that Python str.strip removes. -/
theorem toUpper_fix_of_space {c : Char} (h : pyIsSpace c = true) :
    c.toUpper = c := by
  simp only [pyIsSpace, Bool.or_eq_true, decide_eq_true_eq] at h
  rcases h with ((((h | h) | h) | h) | h) | h <;> subst h <;> decide

/-- A character whose uppercase form is not whitespace is itself not
whitespace. -/
theorem not_space_of_toUpper {c d : Char} (h : c.toUpper = d)
    (hd : pyIsSpace d = false) : pyIsSpace c = false := by
  by_contra hc
  have hc2 : pyIsSpace c = true := by
    cases h2 : pyIsSpace c
    · exact absurd h2 hc
    · rfl
  have := toUpper_fix_of_space hc2
  rw [this] at h
  rw [h] at hc2
  rw [hc2] at hd
  exact absurd hd (by simp)

/-- dropWhile over an append splits on whether the left part is consumed. -/
theorem pyRStrip_append (l x : List Char) (c : Char) (t : List Char)
    (hrev : l.reverse = c :: t) (hc : pyIsSpace c = false) :
    pyRStrip (l ++ x) = l ++ pyRStrip x := by
  unfold pyRStrip
  rw [List.reverse_append, List.dropWhile_append]
  cases hemp : ((x.reverse.dropWhile pyIsSpace).isEmpty)
  · simp only [hemp, Bool.false_eq_true, if_false]
    rw [List.reverse_append, List.reverse_reverse]
  · have hx : x.reverse.dropWhile pyIsSpace = [] := by
      cases h2 : x.reverse.dropWhile pyIsSpace
      · rfl
      · rw [h2] at hemp
        simp [List.isEmpty] at hemp
    simp only [hemp, if_true]
    rw [hx, List.reverse_nil, List.append_nil, hrev,
      List.dropWhile_cons_of_neg (by simp [hc]), ← hrev, List.reverse_reverse]

/-- pyRStrip of a cons is either empty or keeps the head and right-strips
the tail. -/
theorem pyRStrip_cons (c : Char) (x : List Char) :
    pyRStrip (c :: x) = [] ∨ pyRStrip (c :: x) = c :: pyRStrip x := by
  unfold pyRStrip
  rw [show (c :: x).reverse = x.reverse ++ [c] from by simp,
    List.dropWhile_append]
  cases hemp : ((x.reverse.dropWhile pyIsSpace).isEmpty)
  · right
    simp only [hemp, Bool.false_eq_true, if_false]
    simp
  · have hx : x.reverse.dropWhile pyIsSpace = [] := by
      cases h2 : x.reverse.dropWhile pyIsSpace
      · rfl
      · rw [h2] at hemp
        simp [List.isEmpty] at hemp
    simp only [hemp, if_true, hx, List.reverse_nil]
    cases hc : pyIsSpace c
    · right
      rw [List.dropWhile_cons_of_neg (by simp [hc])]
      simp
    · left
      rw [List.dropWhile_cons_of_pos (by simp [hc])]
      simp

/-- splitLines distributes over the first newline when the left part has
none. -/
theorem splitLines_append (l x : List Char) (hnl : '\n' ∉ l) :
    splitLines (l ++ '\n' :: x) = l :: splitLines x := by
  induction l with
  | nil => simp [splitLines]
  | cons c t ih =>
    have hc : c ≠ '\n' := by
      intro h
      exact hnl (by simp [h])
    have ht : '\n' ∉ t := by
      intro h
      exact hnl (by simp [h])
    simp only [List.cons_append, splitLines, if_neg hc]
    rw [List.append_eq, ih ht]

/-- splitLines of a newline-free string is that single line. -/
theorem splitLines_no_newline (l : List Char) (hnl : '\n' ∉ l) :
    splitLines l = [l] := by
  induction l with
  | nil => rfl
  | cons c t ih =>
    have hc : c ≠ '\n' := by
      intro h
      exact hnl (by simp [h])
    have ht : '\n' ∉ t := by
      intro h
      exact hnl (by simp [h])
    simp only [splitLines, if_neg hc, ih ht]

/-- Stripping is the identity on a string whose two ends are not
whitespace. -/
theorem pyStrip_eq_self (l : List Char) (c0 : Char) (t0 : List Char)
    (hl : l = c0 :: t0) (hhead : pyIsSpace c0 = false)
    (c1 : Char) (t1 : List Char) (hrev : l.reverse = c1 :: t1)
    (hlast : pyIsSpace c1 = false) : pyStrip l = l := by
  unfold pyStrip
  rw [hl, List.dropWhile_cons_of_neg (by simp [hhead]), ← hl]
  have := pyRStrip_append l [] c1 t1 hrev hlast
  rw [List.append_nil] at this
  rw [this]
  simp [pyRStrip]

/-- A line whose uppercase form is a fixed marker with non-whitespace ends
and no newline shares those properties. -/
theorem marker_line_facts (l M : List Char) (hU : l.map Char.toUpper = M)
    (hMne : M ≠ []) (hMnl : '\n' ∉ M)
    (hMhead : pyIsSpace (M.headD ' ') = false)
    (hMlast : pyIsSpace (M.reverse.headD ' ') = false) :
    (∃ c0 t0, l = c0 :: t0 ∧ pyIsSpace c0 = false) ∧ '\n' ∉ l ∧
    (∃ c1 t1, l.reverse = c1 :: t1 ∧ pyIsSpace c1 = false) := by
  refine ⟨?_, ?_, ?_⟩
  · cases l with
    | nil =>
      rw [← hU] at hMne
      simp at hMne
    | cons c t =>
      refine ⟨c, t, rfl, ?_⟩
      have hch : c.toUpper = M.headD ' ' := by
        rw [← hU]
        simp
      exact not_space_of_toUpper hch hMhead
  · intro hmem
    have h2 : Char.toUpper '\n' ∈ l.map Char.toUpper :=
      List.mem_map_of_mem _ hmem
    rw [hU] at h2
    exact hMnl h2
  · have hrevU : l.reverse.map Char.toUpper = M.reverse := by
      rw [List.map_reverse, hU]
    cases hrev : l.reverse with
    | nil =>
      rw [hrev] at hrevU
      have : M = [] := by
        have := congrArg List.reverse hrevU
        simpa using this.symm
      exact absurd this hMne
    | cons c1 t1 =>
      refine ⟨c1, t1, rfl, ?_⟩
      rw [hrev] at hrevU
      have hch : c1.toUpper = M.reverse.headD ' ' := by
        rw [← hrevU]
        simp
      exact not_space_of_toUpper hch hMlast

/-- The first (stripped, pre-uppercase) line of marker-line ++ newline ++
rest is the marker line itself. -/
theorem firstLine_concat (l rest : List Char) (c0 : Char) (t0 : List Char)
    (hl : l = c0 :: t0) (hhead : pyIsSpace c0 = false) (hnl : '\n' ∉ l)
    (c1 : Char) (t1 : List Char) (hrev : l.reverse = c1 :: t1)
    (hlast : pyIsSpace c1 = false) :
    (splitLines (pyStrip (l ++ '\n' :: rest))).headD [] = l := by
  have hstrip : pyStrip (l ++ '\n' :: rest) = l ++ pyRStrip ('\n' :: rest) := by
    unfold pyStrip
    rw [hl, List.cons_append, List.dropWhile_cons_of_neg (by simp [hhead]),
      ← List.cons_append, ← hl]
    exact pyRStrip_append l ('\n' :: rest) c1 t1 hrev hlast
  rw [hstrip]
  rcases pyRStrip_cons '\n' rest with h | h
  · rw [h, List.append_nil, splitLines_no_newline l hnl]
    rfl
  · rw [h, splitLines_append l (pyRStrip rest) hnl]
    rfl

/-- The first (stripped) line of a marker line alone is that line. -/
theorem firstLine_alone (l : List Char) (c0 : Char) (t0 : List Char)
    (hl : l = c0 :: t0) (hhead : pyIsSpace c0 = false) (hnl : '\n' ∉ l)
    (c1 : Char) (t1 : List Char) (hrev : l.reverse = c1 :: t1)
    (hlast : pyIsSpace c1 = false) :
    (splitLines (pyStrip l)).headD [] = l := by
  rw [pyStrip_eq_self l c0 t0 hl hhead c1 t1 hrev hlast,
    splitLines_no_newline l hnl]
  rfl

/-! ### Claim theorems -/

/-- C1: evaluate_consensus returns exactly the table outcome by count of
safe votes: 3 safe votes give SAFE/high with no dissenters; 0 safe votes
give UNSAFE/high with all three models dissenting; 1 or 2 safe votes give
REVIEW_REQUIRED/uncertain with exactly the safe=false models dissenting
and rationale k of 3 models flagged concerns, k = 3 - safe_votes. -/
theorem consensus_matches_table (r1 r2 r3 : ModelResponse) :
    (safeVotes r1 r2 r3 = 3 →
      (evaluate_consensus r1 r2 r3).verdict = "SAFE".toList ∧
      (evaluate_consensus r1 r2 r3).confidence = "high".toList ∧
      (evaluate_consensus r1 r2 r3).flagged_by = []) ∧
    (safeVotes r1 r2 r3 = 0 →
      (evaluate_consensus r1 r2 r3).verdict = "UNSAFE".toList ∧
      (evaluate_consensus r1 r2 r3).confidence = "high".toList ∧
      (evaluate_consensus r1 r2 r3).flagged_by =
        ["Claude".toList, "GPT-5".toList, "Llama".toList]) ∧
    (safeVotes r1 r2 r3 = 1 ∨ safeVotes r1 r2 r3 = 2 →
      (evaluate_consensus r1 r2 r3).verdict = "REVIEW_REQUIRED".toList ∧
      (evaluate_consensus r1 r2 r3).confidence = "uncertain".toList ∧
      (evaluate_consensus r1 r2 r3).flagged_by = dissenters r1 r2 r3 ∧
      (evaluate_consensus r1 r2 r3).reasoning =
        Nat.toDigits 10 (3 - safeVotes r1 r2 r3) ++
          " of 3 models flagged concerns".toList) := by
  rcases r1 with ⟨n1, s1, c1, e1⟩
  rcases r2 with ⟨n2, s2, c2, e2⟩
  rcases r3 with ⟨n3, s3, c3, e3⟩
  cases s1 <;> cases s2 <;> cases s3 <;>
    simp [evaluate_consensus, safeVotes, boolToNat, dissenters]

/-- C1 witness: the theorem applied at one concrete triple per branch. -/
theorem consensus_matches_table_witness :
    (evaluate_consensus ⟨"Claude".toList, true, [], []⟩
        ⟨"GPT-5".toList, true, [], []⟩ ⟨"Llama".toList, true, [], []⟩).verdict =
      "SAFE".toList ∧
    (evaluate_consensus ⟨"Claude".toList, false, [], []⟩
        ⟨"GPT-5".toList, false, [], []⟩ ⟨"Llama".toList, false, [], []⟩).verdict =
      "UNSAFE".toList ∧
    (evaluate_consensus ⟨"Claude".toList, true, [], []⟩
        ⟨"GPT-5".toList, false, [], []⟩ ⟨"Llama".toList, false, [], []⟩).verdict =
      "REVIEW_REQUIRED".toList ∧
    (evaluate_consensus ⟨"Claude".toList, true, [], []⟩
        ⟨"GPT-5".toList, false, [], []⟩ ⟨"Llama".toList, false, [], []⟩).reasoning =
      Nat.toDigits 10 (3 - safeVotes ⟨"Claude".toList, true, [], []⟩
        ⟨"GPT-5".toList, false, [], []⟩ ⟨"Llama".toList, false, [], []⟩) ++
        " of 3 models flagged concerns".toList :=
  ⟨((consensus_matches_table ⟨"Claude".toList, true, [], []⟩
      ⟨"GPT-5".toList, true, [], []⟩ ⟨"Llama".toList, true, [], []⟩).1 (by decide)).1,
   ((consensus_matches_table ⟨"Claude".toList, false, [], []⟩
      ⟨"GPT-5".toList, false, [], []⟩ ⟨"Llama".toList, false, [], []⟩).2.1 (by decide)).1,
   ((consensus_matches_table ⟨"Claude".toList, true, [], []⟩
      ⟨"GPT-5".toList, false, [], []⟩ ⟨"Llama".toList, false, [], []⟩).2.2
        (Or.inl (by decide))).1,
   ((consensus_matches_table ⟨"Claude".toList, true, [], []⟩
      ⟨"GPT-5".toList, false, [], []⟩ ⟨"Llama".toList, false, [], []⟩).2.2
        (Or.inl (by decide))).2.2.2⟩

/-- C2: for every triple of results the consensus record satisfies the
invariants: the dissenter count is 3 minus the safe-vote count, the verdict
is SAFE exactly when the dissenter list is empty, and UNSAFE exactly when
the dissenter list holds all three models. -/
theorem consensus_invariants (r1 r2 r3 : ModelResponse) :
    (evaluate_consensus r1 r2 r3).flagged_by.length = 3 - safeVotes r1 r2 r3 ∧
    ((evaluate_consensus r1 r2 r3).verdict = "SAFE".toList ↔
      (evaluate_consensus r1 r2 r3).flagged_by = []) ∧
    ((evaluate_consensus r1 r2 r3).verdict = "UNSAFE".toList ↔
      (evaluate_consensus r1 r2 r3).flagged_by =
        ["Claude".toList, "GPT-5".toList, "Llama".toList]) := by
  rcases r1 with ⟨n1, s1, c1, e1⟩
  rcases r2 with ⟨n2, s2, c2, e2⟩
  rcases r3 with ⟨n3, s3, c3, e3⟩
  cases s1 <;> cases s2 <;> cases s3 <;>
    simp [evaluate_consensus, safeVotes, boolToNat]

/-- The safe-vote count is the countP of the safe field over the triple as
a list. -/
theorem safeVotes_eq_countP (r1 r2 r3 : ModelResponse) :
    safeVotes r1 r2 r3 = List.countP (fun r => r.safe) [r1, r2, r3] := by
  cases h1 : r1.safe <;> cases h2 : r2.safe <;> cases h3 : r3.safe <;>
    simp [safeVotes, boolToNat, List.countP_cons, h1, h2, h3]

/-- Verdict and confidence of the consensus depend only on the safe-vote
count. -/
theorem consensus_verdict_from_votes (r1 r2 r3 : ModelResponse) :
    (evaluate_consensus r1 r2 r3).verdict =
      (if safeVotes r1 r2 r3 = 3 then "SAFE".toList
       else if safeVotes r1 r2 r3 = 0 then "UNSAFE".toList
       else "REVIEW_REQUIRED".toList) ∧
    (evaluate_consensus r1 r2 r3).confidence =
      (if safeVotes r1 r2 r3 = 3 then "high".toList
       else if safeVotes r1 r2 r3 = 0 then "high".toList
       else "uncertain".toList) := by
  rcases r1 with ⟨n1, s1, c1, e1⟩
  rcases r2 with ⟨n2, s2, c2, e2⟩
  rcases r3 with ⟨n3, s3, c3, e3⟩
  cases s1 <;> cases s2 <;> cases s3 <;>
    simp [evaluate_consensus, safeVotes, boolToNat]

/-- C8: the consensus verdict and confidence are invariant under every
permutation of the three ModelResults; order affects only dissenter
identity. -/
theorem consensus_symmetric (r1 r2 r3 s1 s2 s3 : ModelResponse)
    (hperm : List.Perm [r1, r2, r3] [s1, s2, s3]) :
    (evaluate_consensus r1 r2 r3).verdict =
      (evaluate_consensus s1 s2 s3).verdict ∧
    (evaluate_consensus r1 r2 r3).confidence =
      (evaluate_consensus s1 s2 s3).confidence := by
  have hv : safeVotes r1 r2 r3 = safeVotes s1 s2 s3 := by
    rw [safeVotes_eq_countP, safeVotes_eq_countP]
    exact hperm.countP_eq _
  have h1 := consensus_verdict_from_votes r1 r2 r3
  have h2 := consensus_verdict_from_votes s1 s2 s3
  constructor
  · rw [h1.1, h2.1, hv]
  · rw [h1.2, h2.2, hv]

/-- C8 witness: one concrete transposition of a split vote. -/
theorem consensus_symmetric_witness :
    (evaluate_consensus ⟨"Claude".toList, true, [], []⟩
        ⟨"GPT-5".toList, false, [], []⟩ ⟨"Llama".toList, false, [], []⟩).verdict =
      (evaluate_consensus ⟨"GPT-5".toList, false, [], []⟩
        ⟨"Claude".toList, true, [], []⟩ ⟨"Llama".toList, false, [], []⟩).verdict ∧
    (evaluate_consensus ⟨"Claude".toList, true, [], []⟩
        ⟨"GPT-5".toList, false, [], []⟩ ⟨"Llama".toList, false, [], []⟩).confidence =
      (evaluate_consensus ⟨"GPT-5".toList, false, [], []⟩
        ⟨"Claude".toList, true, [], []⟩ ⟨"Llama".toList, false, [], []⟩).confidence :=
  consensus_symmetric ⟨"Claude".toList, true, [], []⟩ ⟨"GPT-5".toList, false, [], []⟩
    ⟨"Llama".toList, false, [], []⟩ ⟨"GPT-5".toList, false, [], []⟩
    ⟨"Claude".toList, true, [], []⟩ ⟨"Llama".toList, false, [], []⟩ (by decide)

/-- C5: each adapter converts a failed provider call into the fail-closed
ModelResult with safe=false, one concern describing the failure, and the
fixed error reasoning; as total functions of the call outcome the adapters
never raise. -/
theorem adapters_fail_closed (e : List Char) :
    analyze_with_claude (Except.error e) =
      { model_name := "Claude Sonnet 4".toList, safe := false,
        concerns := ["API Error: ".toList ++ e],
        reasoning := "Error occurred during analysis".toList } ∧
    analyze_with_gpt5 (Except.error e) =
      { model_name := "GPT 5.2 Thinking".toList, safe := false,
        concerns := ["API Error: ".toList ++ e],
        reasoning := "Error occurred during analysis".toList } ∧
    analyze_with_llama (Except.error e) =
      { model_name := "Llama 3.1 70B".toList, safe := false,
        concerns := ["API Error: ".toList ++ e],
        reasoning := "Error occurred during analysis".toList } :=
  ⟨rfl, rfl, rfl⟩

/-- C6: an unknown verdict maps to safe=false with no concerns, and on
every successful reply each adapter records the first 200 characters of
the raw reply as its reasoning. -/
theorem unknown_fail_closed_audit (s : List Char)
    (h : extract_verdict s = "unknown".toList) :
    (analyze_with_claude (Except.ok s)).safe = false ∧
    (analyze_with_claude (Except.ok s)).concerns = [] ∧
    (∀ t : List Char,
      (analyze_with_claude (Except.ok t)).reasoning = t.take 200 ∧
      (analyze_with_gpt5 (Except.ok t)).reasoning = t.take 200 ∧
      (analyze_with_llama (Except.ok t)).reasoning = t.take 200) := by
  refine ⟨?_, ?_, fun t => ⟨rfl, rfl, rfl⟩⟩
  · simp [analyze_with_claude, processReply, h]
  · simp [analyze_with_claude, processReply, h]

/-- C6 witness: a reply with no marker on the first line. -/
theorem unknown_fail_closed_audit_witness :
    (analyze_with_claude (Except.ok "hello there".toList)).safe = false ∧
    (analyze_with_claude (Except.ok "hello there".toList)).concerns = [] :=
  ⟨(unknown_fail_closed_audit "hello there".toList (by decide)).1,
   (unknown_fail_closed_audit "hello there".toList (by decide)).2.1⟩

/-- C9: for every request and every combination of per-provider outcomes
the orchestrator returns a complete bundle of exactly three ModelResults
with the consensus computed over all three, and every failed provider
contributes its fail-closed result; no partial bundle exists. -/
theorem full_bundle_always (content : List Char)
    (oc og ol : Except (List Char) (List Char)) :
    ∃ b : Bundle,
      (analyze_all_models content oc og ol).result = some b ∧
      b.claude = analyze_with_claude oc ∧
      b.gpt5 = analyze_with_gpt5 og ∧
      b.llama = analyze_with_llama ol ∧
      b.consensus = evaluate_consensus b.claude b.gpt5 b.llama ∧
      (∀ e, oc = Except.error e → b.claude.safe = false) ∧
      (∀ e, og = Except.error e → b.gpt5.safe = false) ∧
      (∀ e, ol = Except.error e → b.llama.safe = false) := by
  refine ⟨_, rfl, rfl, rfl, rfl, rfl, ?_, ?_, ?_⟩ <;>
    · intro e he
      rw [he]
      rfl

/-- C9 witness: one provider raises a transport error, the other two
answer SAFE; the bundle is still complete and the failed vote fail-closed. -/
theorem full_bundle_always_witness :
    ∃ b : Bundle,
      (analyze_all_models "check this".toList
        (Except.error "timeout".toList)
        (Except.ok "VERDICT: SAFE\nfine".toList)
        (Except.ok "VERDICT: SAFE\nfine".toList)).result = some b ∧
      b.claude.safe = false ∧
      b.consensus = evaluate_consensus b.claude b.gpt5 b.llama := by
  obtain ⟨b, hsome, hcl, hg, hl, hcons, hfc, hfg, hfl⟩ :=
    full_bundle_always "check this".toList (Except.error "timeout".toList)
      (Except.ok "VERDICT: SAFE\nfine".toList)
      (Except.ok "VERDICT: SAFE\nfine".toList)
  exact ⟨b, hsome, hfc "timeout".toList rfl, hcons⟩

/-- C7 counterexample: at empty (hence whitespace-only) request content the
handler still invokes all three providers and returns a full bundle; no
rejection happens before the provider calls. -/
theorem empty_input_not_rejected :
    pyStrip [] = [] ∧
    (analyze_all_models [] (Except.ok "VERDICT: SAFE".toList)
      (Except.ok "VERDICT: SAFE".toList)
      (Except.ok "VERDICT: SAFE".toList)).invoked =
      [ProviderName.claudeP, ProviderName.gpt5P, ProviderName.llamaP] ∧
    (analyze_all_models [] (Except.ok "VERDICT: SAFE".toList)
      (Except.ok "VERDICT: SAFE".toList)
      (Except.ok "VERDICT: SAFE".toList)).result ≠ none := by
  refine ⟨rfl, rfl, ?_⟩
  intro h
  simp [analyze_all_models] at h

/-- C7 amended: the analyze-all operation performs no emptiness or
whitespace check on the request text; for every content, including empty
or whitespace-only, all three provider adapters are invoked and a full
bundle is returned. -/
theorem no_input_validation (content : List Char)
    (oc og ol : Except (List Char) (List Char)) :
    (analyze_all_models content oc og ol).invoked =
      [ProviderName.claudeP, ProviderName.gpt5P, ProviderName.llamaP] ∧
    ((analyze_all_models content oc og ol).result).isSome = true :=
  ⟨rfl, rfl⟩

/-- C10: when the case-normalized first line contains both the SAFE and the
UNSAFE marker, extraction returns safe: the SAFE check runs first. -/
theorem both_markers_safe_wins (s : List Char)
    (h1 : occursIn ("VERDICT: SAFE".toList) (firstLineUpper s) = true)
    (_h2 : occursIn ("VERDICT: UNSAFE".toList) (firstLineUpper s) = true) :
    extract_verdict s = "safe".toList := by
  have hdef : extract_verdict s =
      if occursIn ("VERDICT: SAFE".toList) (firstLineUpper s) then "safe".toList
      else if occursIn ("VERDICT: UNSAFE".toList) (firstLineUpper s) then
        "unsafe".toList
      else "unknown".toList := rfl
  rw [hdef, if_pos h1]

/-- C10 witness: a first line carrying both markers. -/
theorem both_markers_safe_wins_witness :
    extract_verdict "VERDICT: UNSAFE VERDICT: SAFE\nexplanation".toList =
      "safe".toList :=
  both_markers_safe_wins "VERDICT: UNSAFE VERDICT: SAFE\nexplanation".toList
    (by decide) (by decide)

/-- C3: a reply whose first line is the SAFE marker in any letter case
extracts to safe regardless of all later lines, including later mentions
of unsafe; the marker line alone also extracts to safe. -/
theorem safe_marker_first_line (l rest : List Char)
    (hU : l.map Char.toUpper = "VERDICT: SAFE".toList) :
    extract_verdict (l ++ '\n' :: rest) = "safe".toList ∧
    extract_verdict l = "safe".toList := by
  obtain ⟨⟨c0, t0, hl, hhead⟩, hnl, ⟨c1, t1, hrev, hlast⟩⟩ :=
    marker_line_facts l ("VERDICT: SAFE".toList) hU (by decide) (by decide)
      (by decide) (by decide)
  constructor
  · have hfl := firstLine_concat l rest c0 t0 hl hhead hnl c1 t1 hrev hlast
    have hdef : extract_verdict (l ++ '\n' :: rest) =
        if occursIn ("VERDICT: SAFE".toList)
            (firstLineUpper (l ++ '\n' :: rest)) then "safe".toList
        else if occursIn ("VERDICT: UNSAFE".toList)
            (firstLineUpper (l ++ '\n' :: rest)) then "unsafe".toList
        else "unknown".toList := rfl
    have hflU : firstLineUpper (l ++ '\n' :: rest) = "VERDICT: SAFE".toList := by
      unfold firstLineUpper
      rw [hfl, hU]
    rw [hdef, hflU]
    decide
  · have hfl := firstLine_alone l c0 t0 hl hhead hnl c1 t1 hrev hlast
    have hdef : extract_verdict l =
        if occursIn ("VERDICT: SAFE".toList) (firstLineUpper l) then
          "safe".toList
        else if occursIn ("VERDICT: UNSAFE".toList) (firstLineUpper l) then
          "unsafe".toList
        else "unknown".toList := rfl
    have hflU : firstLineUpper l = "VERDICT: SAFE".toList := by
      unfold firstLineUpper
      rw [hfl, hU]
    rw [hdef, hflU]
    decide

/-- C3 witness: a lower-case marker followed by a line that mentions the
word unsafe. -/
theorem safe_marker_first_line_witness :
    extract_verdict ("verdict: safe".toList ++ '\n' ::
      "later text calling things unsafe".toList) = "safe".toList :=
  (safe_marker_first_line "verdict: safe".toList
    "later text calling things unsafe".toList (by decide)).1

/-- C4: a reply whose first line is the UNSAFE marker in any letter case
extracts to unsafe, and the adapter records as its single concern the
lines after the first joined into one string, trimmed, truncated to at
most 200 characters, with the concern omitted when that string is empty. -/
theorem unsafe_marker_concern (l rest : List Char)
    (hU : l.map Char.toUpper = "VERDICT: UNSAFE".toList) :
    extract_verdict (l ++ '\n' :: rest) = "unsafe".toList ∧
    (analyze_with_claude (Except.ok (l ++ '\n' :: rest))).concerns =
      (if pyStrip (joinSpace (splitLines rest)) = [] then []
       else [(pyStrip (joinSpace (splitLines rest))).take 200]) := by
  obtain ⟨⟨c0, t0, hl, hhead⟩, hnl, ⟨c1, t1, hrev, hlast⟩⟩ :=
    marker_line_facts l ("VERDICT: UNSAFE".toList) hU (by decide) (by decide)
      (by decide) (by decide)
  have hfl := firstLine_concat l rest c0 t0 hl hhead hnl c1 t1 hrev hlast
  have hflU : firstLineUpper (l ++ '\n' :: rest) = "VERDICT: UNSAFE".toList := by
    unfold firstLineUpper
    rw [hfl, hU]
  have hv : extract_verdict (l ++ '\n' :: rest) = "unsafe".toList := by
    have hdef : extract_verdict (l ++ '\n' :: rest) =
        if occursIn ("VERDICT: SAFE".toList)
            (firstLineUpper (l ++ '\n' :: rest)) then "safe".toList
        else if occursIn ("VERDICT: UNSAFE".toList)
            (firstLineUpper (l ++ '\n' :: rest)) then "unsafe".toList
        else "unknown".toList := rfl
    rw [hdef, hflU]
    decide
  refine ⟨hv, ?_⟩
  have htail : (splitLines (l ++ '\n' :: rest)).tail = splitLines rest := by
    rw [splitLines_append l rest hnl, List.tail_cons]
  simp only [analyze_with_claude, processReply]
  rw [hv, htail]
  simp

/-- C4 witness: an upper-case marker with two reasoning lines. -/
theorem unsafe_marker_concern_witness :
    extract_verdict ("VERDICT: UNSAFE".toList ++ '\n' ::
      "it is risky\nvery risky".toList) = "unsafe".toList ∧
    (analyze_with_claude (Except.ok ("VERDICT: UNSAFE".toList ++ '\n' ::
      "it is risky\nvery risky".toList))).concerns =
      (if pyStrip (joinSpace (splitLines "it is risky\nvery risky".toList)) = []
       then []
       else [(pyStrip (joinSpace
         (splitLines "it is risky\nvery risky".toList))).take 200]) :=
  unsafe_marker_concern "VERDICT: UNSAFE".toList
    "it is risky\nvery risky".toList (by decide)
